import Mathlib

/-!
Verification of the deduplication-index coordinator
(`src/vdo/kernel/dedupeIndex.c`) against its natural-language
specification.  The C data model and operations are shallowly embedded:
machine integers become `Nat`/`Int` (with explicit truncation where a C
store truncates), the fixed-capacity metadata byte buffers become byte
lists, the per-request atomic lifecycle becomes an enum with the
compare-and-swap arbitration written out as conditionals, and the
session state machine becomes explicit state passing with an oracle
supplying the engine's responses.
-/

namespace DedupeIndex

/-! ## Status codes

`UDS_SUCCESS` is zero in the UDS headers.  The two recoverable open
errors live in the UDS error header, which is not part of this tree;
only their being distinct from each other and from `UDS_SUCCESS`
matters to the coordinator, so they are embedded as fixed distinct
nonzero codes.  `ETIMEDOUT` is the Linux errno. -/

def UDS_SUCCESS : Int := 0

def UDS_CORRUPT_COMPONENT : Int := 1030

def UDS_NO_INDEX : Int := 1033

def ETIMEDOUT : Int := 110

/-! ## Advice codec (`encode_uds_advice` / `decode_uds_advice`)

The advice record is `version (1 byte) :: state (1 byte) :: pbn
(8 bytes little-endian)`.  The chunk-data buffer is embedded as the
list of its bytes. -/

-- Version 1:  user space albireo index (limited to 32 bytes)
-- Version 2:  kernel space albireo index (limited to 16 bytes)
def UDS_ADVICE_VERSION : Nat := 2

-- version byte + state byte + 64-bit little-endian PBN
def UDS_ADVICE_SIZE : Nat := 1 + 1 + 8

/-- VDO duplicate advice: a mapping state byte and a physical block
number. -/
structure DataLocation where
  state : Nat
  pbn : Nat
deriving DecidableEq

/-- Little-endian base-256 encoding of `v` into `n` bytes, as the
byte-store loop of `encodeUInt64LE` produces (each store truncates to a
byte). -/
def encodeLEBytes : Nat → Nat → List Nat
  | 0, _ => []
  | n + 1, v => v % 256 :: encodeLEBytes n (v / 256)

/-- Little-endian base-256 decoding, as `decodeUInt64LE` reads. -/
def decodeLEBytes : List Nat → Nat
  | [] => 0
  | b :: rest => b + 256 * decodeLEBytes rest

def encodeUInt64LE (v : Nat) : List Nat := encodeLEBytes 8 v

def decodeUInt64LE (bs : List Nat) : Nat := decodeLEBytes (bs.take 8)

/-- `encode_uds_advice`: write the version byte, the state byte and the
64-bit little-endian pbn into the outbound metadata slot.  The C byte
stores truncate, hence the `% 256` on the state. -/
def encode_uds_advice (advice : DataLocation) : List Nat :=
  UDS_ADVICE_VERSION :: advice.state % 256 :: encodeUInt64LE advice.pbn

/-- The part of a completed `UdsRequest` that `decode_uds_advice`
reads: the engine status, the found flag, and the inbound
(`oldMetadata`) bytes. -/
structure UdsRequestResult where
  status : Int
  found : Bool
  oldMetadata : List Nat
deriving DecidableEq

/-- `decode_uds_advice`: yields the advice only when the request
succeeded, the index reported found, and the version byte is
`UDS_ADVICE_VERSION`. -/
def decode_uds_advice (request : UdsRequestResult) : Option DataLocation :=
  if request.status ≠ UDS_SUCCESS ∨ request.found = false then none
  else
    match request.oldMetadata with
    | version :: stateByte :: rest =>
        if version ≠ UDS_ADVICE_VERSION then none
        else some ⟨stateByte, decodeUInt64LE rest⟩
    | _ => none

theorem decodeLEBytes_encodeLEBytes (n : Nat) : ∀ v : Nat,
    decodeLEBytes (encodeLEBytes n v) = v % 256 ^ n := by
  induction n with
  | zero => intro v; simp [encodeLEBytes, decodeLEBytes, Nat.mod_one]
  | succ n ih =>
      intro v
      rw [encodeLEBytes, decodeLEBytes, ih (v / 256), pow_succ,
        mul_comm (256 ^ n) 256, Nat.mod_mul]

theorem encodeLEBytes_length (n : Nat) : ∀ v : Nat,
    (encodeLEBytes n v).length = n := by
  induction n with
  | zero => intro v; rfl
  | succ n ih => intro v; simp [encodeLEBytes, ih]

theorem decodeUInt64LE_encodeUInt64LE (v : Nat) :
    decodeUInt64LE (encodeUInt64LE v) = v % 2 ^ 64 := by
  have hlen : (encodeLEBytes 8 v).length = 8 := encodeLEBytes_length 8 v
  have htake : (encodeLEBytes 8 v).take 8 = encodeLEBytes 8 v := by
    rw [← hlen]; exact List.take_length _
  have h256 : (256 : Nat) ^ 8 = 2 ^ 64 := by norm_num
  rw [decodeUInt64LE, encodeUInt64LE, htake, decodeLEBytes_encodeLEBytes, h256]

/-- C4: for any `state` in `[0, 255]` and `pbn` in `[0, 2^64)`,
decoding the record produced by `encode_uds_advice` on a successful,
found request yields exactly `(state, pbn)`; the encoding is exactly
`version = 2`, the state byte, then the pbn little-endian, and is
exactly `UDS_ADVICE_SIZE = 10` bytes long. -/
theorem c4_decode_encode_roundtrip (state pbn : Nat)
    (hs : state < 256) (hp : pbn < 2 ^ 64) :
    decode_uds_advice
        { status := UDS_SUCCESS, found := true,
          oldMetadata := encode_uds_advice ⟨state, pbn⟩ } =
      some ⟨state, pbn⟩ ∧
    encode_uds_advice ⟨state, pbn⟩ =
      2 :: state ::
        [pbn % 256, pbn / 256 % 256, pbn / 256 ^ 2 % 256, pbn / 256 ^ 3 % 256,
         pbn / 256 ^ 4 % 256, pbn / 256 ^ 5 % 256, pbn / 256 ^ 6 % 256,
         pbn / 256 ^ 7 % 256] ∧
    (encode_uds_advice ⟨state, pbn⟩).length = UDS_ADVICE_SIZE := by
  have hsmod : state % 256 = state := Nat.mod_eq_of_lt hs
  have hpmod : pbn % 2 ^ 64 = pbn := Nat.mod_eq_of_lt hp
  refine ⟨?_, ?_, ?_⟩
  · simp [decode_uds_advice, encode_uds_advice, UDS_ADVICE_VERSION,
      decodeUInt64LE_encodeUInt64LE, hsmod]
    omega
  · simp only [encode_uds_advice, encodeUInt64LE, encodeLEBytes,
      UDS_ADVICE_VERSION, hsmod]
    simp [Nat.div_div_eq_div_mul]
  · simp [encode_uds_advice, encodeUInt64LE, encodeLEBytes_length,
      UDS_ADVICE_SIZE]

/-- C4 witness at `state = 7`, `pbn = 42`. -/
theorem c4_decode_encode_roundtrip_witness :
    decode_uds_advice
        { status := UDS_SUCCESS, found := true,
          oldMetadata := encode_uds_advice ⟨7, 42⟩ } =
      some ⟨7, 42⟩ ∧
    encode_uds_advice ⟨7, 42⟩ =
      2 :: 7 ::
        [42 % 256, 42 / 256 % 256, 42 / 256 ^ 2 % 256, 42 / 256 ^ 3 % 256,
         42 / 256 ^ 4 % 256, 42 / 256 ^ 5 % 256, 42 / 256 ^ 6 % 256,
         42 / 256 ^ 7 % 256] ∧
    (encode_uds_advice ⟨7, 42⟩).length = UDS_ADVICE_SIZE :=
  c4_decode_encode_roundtrip 7 42 (by decide) (by decide)

/-- C5: `decode_uds_advice` yields advice only when the request
succeeded, the index reported found, and the first metadata byte is the
version `2`; a failed or not-found request, or a payload whose first
byte differs from `2`, yields no advice. -/
theorem c5_decode_guard (r : UdsRequestResult) :
    (∀ a : DataLocation, decode_uds_advice r = some a →
        r.status = UDS_SUCCESS ∧ r.found = true ∧
        r.oldMetadata.head? = some UDS_ADVICE_VERSION) ∧
    (∀ b bs, r.oldMetadata = b :: bs → b ≠ UDS_ADVICE_VERSION →
        decode_uds_advice r = none) ∧
    (r.status ≠ UDS_SUCCESS → decode_uds_advice r = none) ∧
    (r.found = false → decode_uds_advice r = none) := by
  refine ⟨?_, ?_, ?_, ?_⟩
  · intro a ha
    by_cases hst : r.status = UDS_SUCCESS
    · by_cases hf : r.found = true
      · refine ⟨hst, hf, ?_⟩
        simp only [decode_uds_advice, hst, hf] at ha
        simp only [ne_eq, not_true_eq_false, false_or, Bool.true_eq_false,
          if_false] at ha
        match hm : r.oldMetadata with
        | [] => rw [hm] at ha; exact absurd ha (by simp)
        | [b] => rw [hm] at ha; exact absurd ha (by simp)
        | b :: c :: rest =>
            rw [hm] at ha
            by_cases hb : b = UDS_ADVICE_VERSION
            · simp [hb]
            · simp [hb] at ha
      · exfalso
        have : r.found = false := by
          cases hrf : r.found
          · rfl
          · exact absurd hrf hf
        simp [decode_uds_advice, this] at ha
    · exfalso; simp [decode_uds_advice, hst] at ha
  · intro b bs hm hb
    simp only [decode_uds_advice, hm]
    by_cases hst : r.status = UDS_SUCCESS ∧ r.found = true
    · cases bs with
      | nil => simp [hst.1, hst.2]
      | cons c rest => simp [hst.1, hst.2, hb]
    · rcases not_and_or.mp hst with h | h
      · simp [h]
      · have : r.found = false := by
          cases hrf : r.found
          · rfl
          · exact absurd hrf h
        simp [this, hb]
  · intro hst; simp [decode_uds_advice, hst]
  · intro hf; simp [decode_uds_advice, hf]

/-- C5 witness: a version-1 payload on a successful found request
yields no advice. -/
theorem c5_decode_guard_witness :
    decode_uds_advice
        { status := UDS_SUCCESS, found := true,
          oldMetadata := [1, 7, 42, 0, 0, 0, 0, 0, 0, 0] } = none :=
  (c5_decode_guard _).2.1 1 [7, 42, 0, 0, 0, 0, 0, 0, 0] rfl (by decide)

/-! ## Tunable clamping (`set_albireo_timeout_interval` /
`set_min_albireo_timer_interval`)

Both setters cap the millisecond value, convert it to timer ticks
(jiffies), and floor the result at two ticks, converting back to
milliseconds when the floor bites. -/

/-- Modelled from the spec: `msecs_to_jiffies` is the host kernel's
millisecond-to-tick conversion, which is not part of this tree.  For a
tick period `1000 / hz` milliseconds (tick rates dividing 1000 Hz) it
rounds up to whole ticks. -/
def msecs_to_jiffies (hz m : Nat) : Nat := (m + 1000 / hz - 1) / (1000 / hz)

/-- Modelled from the spec: the host kernel's tick-to-millisecond
conversion, exact for tick rates dividing 1000 Hz. -/
def jiffies_to_msecs (hz j : Nat) : Nat := 1000 / hz * j

/-- `set_albireo_timeout_interval`; returns the stored pair
`(albireo_timeout_interval, albireo_timeout_jiffies)`. -/
def set_albireo_timeout_interval (hz value : Nat) : Nat × Nat :=
  -- Arbitrary maximum value is two minutes
  let value2 := if 120000 < value then 120000 else value
  -- Arbitrary minimum value is 2 jiffies
  let alb_jiffies := msecs_to_jiffies hz value2
  if alb_jiffies < 2 then (jiffies_to_msecs hz 2, 2) else (value2, alb_jiffies)

/-- `set_min_albireo_timer_interval`; returns the stored pair
`(min_albireo_timer_interval, min_albireo_timer_jiffies)`. -/
def set_min_albireo_timer_interval (hz value : Nat) : Nat × Nat :=
  -- Arbitrary maximum value is one second
  let value2 := if 1000 < value then 1000 else value
  -- Arbitrary minimum value is 2 jiffies
  let min_jiffies := msecs_to_jiffies hz value2
  if min_jiffies < 2 then (jiffies_to_msecs hz 2, 2) else (value2, min_jiffies)

theorem two_le_msecs_to_jiffies (hz m : Nat)
    (hp1 : 1 ≤ 1000 / hz) (hp10 : 1000 / hz ≤ 10) (hm : 20 ≤ m) :
    2 ≤ msecs_to_jiffies hz m := by
  unfold msecs_to_jiffies
  rw [Nat.le_div_iff_mul_le (by omega)]
  omega

theorem set_albireo_timeout_interval_spec (hz value : Nat)
    (hp1 : 1 ≤ 1000 / hz) (hp10 : 1000 / hz ≤ 10) :
    2 ≤ (set_albireo_timeout_interval hz value).2 ∧
    (set_albireo_timeout_interval hz value).1 ≤ 120000 ∧
    (120000 < value → (set_albireo_timeout_interval hz value).1 = 120000) ∧
    (set_albireo_timeout_interval hz value).2 =
      max (msecs_to_jiffies hz (if 120000 < value then 120000 else value))
        2 := by
  have hcap : 2 ≤ msecs_to_jiffies hz 120000 :=
    two_le_msecs_to_jiffies hz 120000 hp1 hp10 (by omega)
  simp only [set_albireo_timeout_interval, jiffies_to_msecs]
  split_ifs with hv hj hj <;>
    refine ⟨by omega, by omega, by omega, by omega⟩

theorem set_min_albireo_timer_interval_spec (hz value : Nat)
    (hp1 : 1 ≤ 1000 / hz) (hp10 : 1000 / hz ≤ 10) :
    2 ≤ (set_min_albireo_timer_interval hz value).2 ∧
    (set_min_albireo_timer_interval hz value).1 ≤ 1000 ∧
    (1000 < value → (set_min_albireo_timer_interval hz value).1 = 1000) ∧
    (set_min_albireo_timer_interval hz value).2 =
      max (msecs_to_jiffies hz (if 1000 < value then 1000 else value))
        2 := by
  have hcap : 2 ≤ msecs_to_jiffies hz 1000 :=
    two_le_msecs_to_jiffies hz 1000 hp1 hp10 (by omega)
  simp only [set_min_albireo_timer_interval, jiffies_to_msecs]
  split_ifs with hv hj hj <;>
    refine ⟨by omega, by omega, by omega, by omega⟩

/-- C9: for every input value (at any host tick rate between 100 Hz
and 1000 Hz), the timeout setter stores at most 120000 ms and at least
two ticks, the minimum-interval setter stores at most 1000 ms and at
least two ticks; values above the cap are clamped to the cap, and a
tick conversion below two ticks is raised to two ticks. -/
theorem c9_tunable_clamping (hz value : Nat)
    (h100 : 100 ≤ hz) (h1000 : hz ≤ 1000) :
    2 ≤ (set_albireo_timeout_interval hz value).2 ∧
    (set_albireo_timeout_interval hz value).1 ≤ 120000 ∧
    (120000 < value → (set_albireo_timeout_interval hz value).1 = 120000) ∧
    (set_albireo_timeout_interval hz value).2 =
      max (msecs_to_jiffies hz (if 120000 < value then 120000 else value))
        2 ∧
    2 ≤ (set_min_albireo_timer_interval hz value).2 ∧
    (set_min_albireo_timer_interval hz value).1 ≤ 1000 ∧
    (1000 < value → (set_min_albireo_timer_interval hz value).1 = 1000) ∧
    (set_min_albireo_timer_interval hz value).2 =
      max (msecs_to_jiffies hz (if 1000 < value then 1000 else value))
        2 := by
  have hzpos : 0 < hz := by omega
  have hp1 : 1 ≤ 1000 / hz := (Nat.one_le_div_iff hzpos).mpr h1000
  have hp10 : 1000 / hz ≤ 10 := by
    calc 1000 / hz ≤ 1000 / 100 := Nat.div_le_div_left h100 (by norm_num)
    _ = 10 := by norm_num
  obtain ⟨a1, a2, a3, a4⟩ := set_albireo_timeout_interval_spec hz value hp1 hp10
  obtain ⟨b1, b2, b3, b4⟩ :=
    set_min_albireo_timer_interval_spec hz value hp1 hp10
  exact ⟨a1, a2, a3, a4, b1, b2, b3, b4⟩

/-- C9 witness at `hz = 250`: the default 5000 ms timeout and a
billion-millisecond request clamped to the two-minute cap. -/
theorem c9_tunable_clamping_witness :
    (2 ≤ (set_albireo_timeout_interval 250 1000000000).2 ∧
      (set_albireo_timeout_interval 250 1000000000).1 ≤ 120000 ∧
      (120000 < 1000000000 →
        (set_albireo_timeout_interval 250 1000000000).1 = 120000) ∧
      (set_albireo_timeout_interval 250 1000000000).2 =
        max (msecs_to_jiffies 250
          (if 120000 < 1000000000 then 120000 else 1000000000)) 2 ∧
      2 ≤ (set_min_albireo_timer_interval 250 1000000000).2 ∧
      (set_min_albireo_timer_interval 250 1000000000).1 ≤ 1000 ∧
      (1000 < 1000000000 →
        (set_min_albireo_timer_interval 250 1000000000).1 = 1000) ∧
      (set_min_albireo_timer_interval 250 1000000000).2 =
        max (msecs_to_jiffies 250
          (if 1000 < 1000000000 then 1000 else 1000000000)) 2) :=
  c9_tunable_clamping 250 1000000000 (by decide) (by decide)

/-! ## Request lifecycle

The per-request record `dedupe_context` carries the atomic
`request_state` that arbitrates the submission, completion and timeout
paths.  Because each path performs a single atomic compare-and-swap on
`request_state` and every interleaving of the paths is a sequence of
those swaps, the paths are embedded as step functions on the context,
and interleavings as event lists folded through them. -/

-- These are the values in the atomic dedupe_context.request_state field
inductive RequestState where
  -- The UdsRequest object is not in use.
  | UR_IDLE
  -- The UdsRequest object is in use, and VDO is waiting for the result.
  | UR_BUSY
  -- The UdsRequest object is in use, but has timed out.
  | UR_TIMED_OUT
deriving DecidableEq

inductive UdsCallbackType where
  | UDS_POST
  | UDS_QUERY
  | UDS_UPDATE
deriving DecidableEq

/-- The per-request `dedupe_context`.  `dedupe_advice` is the inbound
advice slot written by `set_dedupe_advice` (the accessor lives in the
data-path headers outside this tree; it stores the decoded advice, or
clears it, for the data-path callback to read). -/
structure DedupeContext where
  request_state : RequestState
  is_pending : Bool
  submission_time : Nat
  status : Int
  dedupe_advice : Option DataLocation
deriving DecidableEq

/-- Result of `enqueue_index_operation`: the updated context, the
updated counters, whether the work item was enqueued to the uds queue,
and whether the data-path callback was invoked before returning. -/
structure EnqueueOutcome where
  ctx : DedupeContext
  active : Int
  maximum : Int
  context_busy : Nat
  enqueued : Bool
  callback_invoked : Bool
deriving DecidableEq

/-- `enqueue_index_operation`: set status and submission time, win the
`IDLE → BUSY` compare-and-swap or bump the context-busy counter, and
under the state lock either hand the work item to the uds queue (when
`deduping`) or revert to `IDLE`; the callback fires immediately on
every path that did not enqueue. -/
def enqueue_index_operation (deduping : Bool) (now : Nat)
    (active maximum : Int) (context_busy : Nat)
    (ctx : DedupeContext) : EnqueueOutcome :=
  let ctx := { ctx with status := UDS_SUCCESS, submission_time := now }
  if ctx.request_state = RequestState.UR_IDLE then
    -- compareAndSwap32 IDLE → BUSY succeeded
    let ctx := { ctx with request_state := RequestState.UR_BUSY }
    if deduping then
      let active2 := active + 1
      { ctx := ctx, active := active2,
        maximum := if maximum < active2 then active2 else maximum,
        context_busy := context_busy,
        enqueued := true, callback_invoked := false }
    else
      { ctx := { ctx with request_state := RequestState.UR_IDLE },
        active := active, maximum := maximum, context_busy := context_busy,
        enqueued := false, callback_invoked := true }
  else
    -- A previous user of the kvio had a dedupe timeout
    -- and its request is still outstanding.
    { ctx := ctx, active := active, maximum := maximum,
      context_busy := context_busy + 1,
      enqueued := false, callback_invoked := true }

/-- Result of `finish_index_operation` or of one entry of the timeout
expiry loop. -/
structure CompletionOutcome where
  ctx : DedupeContext
  active : Int
  timeout_count : Nat
  callback_invoked : Bool
deriving DecidableEq

/-- `finish_index_operation`: the engine-completion path.  Win the
`BUSY → IDLE` compare-and-swap (then unlink from pending, record the
engine status, decode advice for post and query, invoke the data-path
callback and decrement `active`), or silently reclaim a timed-out
context via `TIMED_OUT → IDLE`.  The request type is the `type` field
of the completed `UdsRequest`. -/
def finish_index_operation (typ : UdsCallbackType)
    (uds_request : UdsRequestResult) (ctx : DedupeContext)
    (active : Int) (timeout_count : Nat) : CompletionOutcome :=
  if ctx.request_state = RequestState.UR_BUSY then
    -- compareAndSwap32 BUSY → IDLE succeeded
    let ctx := { ctx with request_state := RequestState.UR_IDLE }
    let ctx :=
      if ctx.is_pending then { ctx with is_pending := false } else ctx
    let ctx := { ctx with status := uds_request.status }
    let ctx :=
      if typ = UdsCallbackType.UDS_POST ∨ typ = UdsCallbackType.UDS_QUERY
      then { ctx with dedupe_advice := decode_uds_advice uds_request }
      else ctx
    { ctx := ctx, active := active - 1, timeout_count := timeout_count,
      callback_invoked := true }
  else if ctx.request_state = RequestState.UR_TIMED_OUT then
    -- compareAndSwap32 TIMED_OUT → IDLE reclaims the context
    { ctx := { ctx with request_state := RequestState.UR_IDLE },
      active := active, timeout_count := timeout_count,
      callback_invoked := false }
  else
    { ctx := ctx, active := active, timeout_count := timeout_count,
      callback_invoked := false }

/-- The body of the expiry loop of `timeout_index_operations` for one
expired entry: win `BUSY → TIMED_OUT`, then set `ETIMEDOUT`, invoke
the data-path callback, decrement `active` and count the timeout. -/
def expire_index_operation (ctx : DedupeContext) (active : Int)
    (timeout_count : Nat) : CompletionOutcome :=
  if ctx.request_state = RequestState.UR_BUSY then
    { ctx := { ctx with
        request_state := RequestState.UR_TIMED_OUT
        status := ETIMEDOUT },
      active := active - 1, timeout_count := timeout_count + 1,
      callback_invoked := true }
  else
    { ctx := ctx, active := active, timeout_count := timeout_count,
      callback_invoked := false }

/-- An event that can reach a context after its submission: the engine
completion, or the timer expiring it. -/
inductive CompletionEvent where
  | complete (typ : UdsCallbackType) (r : UdsRequestResult)
  | timeout
deriving DecidableEq

def completionStep (ctx : DedupeContext) (active : Int)
    (timeout_count : Nat) : CompletionEvent → CompletionOutcome
  | CompletionEvent.complete typ r =>
      finish_index_operation typ r ctx active timeout_count
  | CompletionEvent.timeout =>
      expire_index_operation ctx active timeout_count

/-- Total number of data-path callbacks delivered to one context by a
sequence of completion and timeout events. -/
def callbackCount (ctx : DedupeContext) (active : Int)
    (timeout_count : Nat) : List CompletionEvent → Nat
  | [] => 0
  | e :: rest =>
      let o := completionStep ctx active timeout_count e
      (if o.callback_invoked then 1 else 0) +
        callbackCount o.ctx o.active o.timeout_count rest

theorem completionStep_not_busy (ctx : DedupeContext) (active : Int)
    (timeout_count : Nat) (e : CompletionEvent)
    (h : ctx.request_state ≠ RequestState.UR_BUSY) :
    (completionStep ctx active timeout_count e).callback_invoked = false ∧
    (completionStep ctx active timeout_count e).ctx.request_state ≠
      RequestState.UR_BUSY := by
  cases e with
  | complete typ r =>
      simp only [completionStep, finish_index_operation, if_neg h]
      cases hs : ctx.request_state <;> simp_all
  | timeout =>
      simp only [completionStep, expire_index_operation, if_neg h]
      simp_all

theorem callbackCount_not_busy (evs : List CompletionEvent) :
    ∀ (ctx : DedupeContext) (active : Int) (timeout_count : Nat),
    ctx.request_state ≠ RequestState.UR_BUSY →
    callbackCount ctx active timeout_count evs = 0 := by
  induction evs with
  | nil => intro ctx active timeout_count _; rfl
  | cons e rest ih =>
      intro ctx active timeout_count h
      obtain ⟨hcb, hst⟩ := completionStep_not_busy ctx active timeout_count e h
      simp only [callbackCount, hcb]
      rw [ih _ _ _ hst]
      simp

theorem completionStep_leaves_busy (ctx : DedupeContext) (active : Int)
    (timeout_count : Nat) (e : CompletionEvent)
    (h : ctx.request_state = RequestState.UR_BUSY) :
    (completionStep ctx active timeout_count e).ctx.request_state ≠
      RequestState.UR_BUSY := by
  cases e with
  | complete typ r =>
      simp only [completionStep, finish_index_operation, h, if_pos]
      split <;> split <;> simp
  | timeout =>
      simp [completionStep, expire_index_operation, h]

/-- C1: at most one data-path callback per submission.  From the
`BUSY` state any sequence of engine completions and timer expirations
delivers at most one callback; in particular when the timeout path
wins the `BUSY → TIMED_OUT` compare-and-swap (delivering the callback
with `ETIMEDOUT`), the later engine completion fails its
`BUSY → IDLE` swap, reclaims the context with `TIMED_OUT → IDLE`, and
does not invoke the callback again. -/
theorem c1_at_most_one_callback (ctx : DedupeContext) (active : Int)
    (timeout_count : Nat) (evs : List CompletionEvent)
    (typ : UdsCallbackType) (r : UdsRequestResult)
    (h : ctx.request_state = RequestState.UR_BUSY) :
    callbackCount ctx active timeout_count evs ≤ 1 ∧
    (expire_index_operation ctx active timeout_count).callback_invoked
      = true ∧
    (expire_index_operation ctx active timeout_count).ctx.request_state
      = RequestState.UR_TIMED_OUT ∧
    (expire_index_operation ctx active timeout_count).ctx.status
      = ETIMEDOUT ∧
    (finish_index_operation typ r
        (expire_index_operation ctx active timeout_count).ctx
        (expire_index_operation ctx active timeout_count).active
        (expire_index_operation ctx active timeout_count).timeout_count
      ).callback_invoked = false ∧
    (finish_index_operation typ r
        (expire_index_operation ctx active timeout_count).ctx
        (expire_index_operation ctx active timeout_count).active
        (expire_index_operation ctx active timeout_count).timeout_count
      ).ctx.request_state = RequestState.UR_IDLE ∧
    (finish_index_operation typ r
        (expire_index_operation ctx active timeout_count).ctx
        (expire_index_operation ctx active timeout_count).active
        (expire_index_operation ctx active timeout_count).timeout_count
      ).active =
      (expire_index_operation ctx active timeout_count).active := by
  refine ⟨?_, ?_⟩
  · cases evs with
    | nil => simp [callbackCount]
    | cons e rest =>
        have hleft := completionStep_leaves_busy ctx active timeout_count e h
        simp only [callbackCount]
        have hrest := callbackCount_not_busy rest
          (completionStep ctx active timeout_count e).ctx
          (completionStep ctx active timeout_count e).active
          (completionStep ctx active timeout_count e).timeout_count hleft
        rw [hrest]
        split <;> omega
  · simp [expire_index_operation, finish_index_operation, h]

/-- C1 witness: a concrete busy context, expired then completed. -/
theorem c1_at_most_one_callback_witness :
    callbackCount
        { request_state := RequestState.UR_BUSY, is_pending := true,
          submission_time := 0, status := 0, dedupe_advice := none }
        1 0
        [CompletionEvent.timeout,
         CompletionEvent.complete UdsCallbackType.UDS_POST
           ⟨UDS_SUCCESS, true, [2, 7, 42, 0, 0, 0, 0, 0, 0, 0]⟩] ≤ 1 :=
  (c1_at_most_one_callback
      { request_state := RequestState.UR_BUSY, is_pending := true,
        submission_time := 0, status := 0, dedupe_advice := none }
      1 0
      [CompletionEvent.timeout,
       CompletionEvent.complete UdsCallbackType.UDS_POST
         ⟨UDS_SUCCESS, true, [2, 7, 42, 0, 0, 0, 0, 0, 0, 0]⟩]
      UdsCallbackType.UDS_POST
      ⟨UDS_SUCCESS, true, [2, 7, 42, 0, 0, 0, 0, 0, 0, 0]⟩ rfl).1

/-- C2: a `post/query/update` whose `IDLE → BUSY` compare-and-swap
fails bumps the context-busy counter and delivers the callback at once
without enqueuing, touching `active`, `maximum` or the advice slot;
one whose swap succeeds while `deduping` is false reverts the state to
`IDLE` and delivers the callback without enqueuing or touching the
counters or the advice slot. -/
theorem c2_dispatch_no_engine_paths (deduping : Bool) (now : Nat)
    (active maximum : Int) (context_busy : Nat) (ctx : DedupeContext) :
    (ctx.request_state ≠ RequestState.UR_IDLE →
      (enqueue_index_operation deduping now active maximum context_busy
          ctx).context_busy = context_busy + 1 ∧
      (enqueue_index_operation deduping now active maximum context_busy
          ctx).callback_invoked = true ∧
      (enqueue_index_operation deduping now active maximum context_busy
          ctx).enqueued = false ∧
      (enqueue_index_operation deduping now active maximum context_busy
          ctx).active = active ∧
      (enqueue_index_operation deduping now active maximum context_busy
          ctx).maximum = maximum ∧
      (enqueue_index_operation deduping now active maximum context_busy
          ctx).ctx.dedupe_advice = ctx.dedupe_advice ∧
      (enqueue_index_operation deduping now active maximum context_busy
          ctx).ctx.request_state = ctx.request_state) ∧
    (ctx.request_state = RequestState.UR_IDLE → deduping = false →
      (enqueue_index_operation deduping now active maximum context_busy
          ctx).ctx.request_state = RequestState.UR_IDLE ∧
      (enqueue_index_operation deduping now active maximum context_busy
          ctx).callback_invoked = true ∧
      (enqueue_index_operation deduping now active maximum context_busy
          ctx).enqueued = false ∧
      (enqueue_index_operation deduping now active maximum context_busy
          ctx).active = active ∧
      (enqueue_index_operation deduping now active maximum context_busy
          ctx).maximum = maximum ∧
      (enqueue_index_operation deduping now active maximum context_busy
          ctx).context_busy = context_busy ∧
      (enqueue_index_operation deduping now active maximum context_busy
          ctx).ctx.dedupe_advice = ctx.dedupe_advice) := by
  constructor
  · intro h
    simp [enqueue_index_operation, h]
  · intro h hd
    simp [enqueue_index_operation, h, hd]

/-- C2 witness: a stale (busy) context and a fresh context with
deduping off. -/
theorem c2_dispatch_no_engine_paths_witness :
    (enqueue_index_operation true 5 3 4 9
        { request_state := RequestState.UR_BUSY, is_pending := false,
          submission_time := 0, status := 0, dedupe_advice := none }
      ).context_busy = 10 ∧
    (enqueue_index_operation false 5 3 4 9
        { request_state := RequestState.UR_IDLE, is_pending := false,
          submission_time := 0, status := 0, dedupe_advice := none }
      ).enqueued = false := by
  constructor
  · exact ((c2_dispatch_no_engine_paths true 5 3 4 9
      { request_state := RequestState.UR_BUSY, is_pending := false,
        submission_time := 0, status := 0, dedupe_advice := none }).1
      (by decide)).1
  · exact ((c2_dispatch_no_engine_paths false 5 3 4 9
      { request_state := RequestState.UR_IDLE, is_pending := false,
        submission_time := 0, status := 0, dedupe_advice := none }).2
      rfl rfl).2.2.1

/-- C10: the dispatcher sets the context status to `UDS_SUCCESS`
before the compare-and-swap arbitration, so on both paths that deliver
the callback without reaching the engine (stale-context swap failure,
and deduping disabled) the callback observes `status = UDS_SUCCESS`. -/
theorem c10_status_success_on_local_paths (deduping : Bool) (now : Nat)
    (active maximum : Int) (context_busy : Nat) (ctx : DedupeContext) :
    (ctx.request_state ≠ RequestState.UR_IDLE →
      (enqueue_index_operation deduping now active maximum context_busy
          ctx).callback_invoked = true ∧
      (enqueue_index_operation deduping now active maximum context_busy
          ctx).ctx.status = UDS_SUCCESS) ∧
    (ctx.request_state = RequestState.UR_IDLE → deduping = false →
      (enqueue_index_operation deduping now active maximum context_busy
          ctx).callback_invoked = true ∧
      (enqueue_index_operation deduping now active maximum context_busy
          ctx).ctx.status = UDS_SUCCESS) := by
  constructor
  · intro h
    simp [enqueue_index_operation, h]
  · intro h hd
    simp [enqueue_index_operation, h, hd]

/-- C10 witness: a stale busy context carrying an old error status
still reports `UDS_SUCCESS` to the immediate callback. -/
theorem c10_status_success_on_local_paths_witness :
    (enqueue_index_operation true 5 3 4 9
        { request_state := RequestState.UR_TIMED_OUT, is_pending := false,
          submission_time := 0, status := 110, dedupe_advice := none }
      ).ctx.status = UDS_SUCCESS :=
  ((c10_status_success_on_local_paths true 5 3 4 9
      { request_state := RequestState.UR_TIMED_OUT, is_pending := false,
        submission_time := 0, status := 110, dedupe_advice := none }).1
    (by decide)).2

/-! ## Pending tracker and timeout walk (`timeout_index_operations`)

Jiffies are 64-bit unsigned; `jiffies - timeout` is the wrapping
subtraction the C performs on `unsigned long`. -/

def jiffiesSub (a b : Nat) : Nat := (a + (2 ^ 64 - b % 2 ^ 64)) % 2 ^ 64

theorem jiffiesSub_eq (a b : Nat) (hb : b ≤ a) (ha : a < 2 ^ 64) :
    jiffiesSub a b = a - b := by
  unfold jiffiesSub
  have hb64 : b % 2 ^ 64 = b := Nat.mod_eq_of_lt (lt_of_le_of_lt hb ha)
  rw [hb64]
  have h1 : a + (2 ^ 64 - b) = (a - b) + 2 ^ 64 := by omega
  rw [h1, Nat.add_mod_right, Nat.mod_eq_of_lt (by omega)]

def maxULong (a b : Nat) : Nat := max a b

/-- `get_albireo_timeout`: the absolute timer deadline for an entry
submitted at `start_jiffies` — its submission time plus the timeout,
but never sooner than the minimum timer interval from now. -/
def get_albireo_timeout
    (timeout_jiffies min_timer_jiffies now start_jiffies : Nat) : Nat :=
  maxULong ((start_jiffies + timeout_jiffies) % 2 ^ 64)
    ((now + min_timer_jiffies) % 2 ^ 64)

/-- The first loop of `timeout_index_operations`: walk the pending
list from the head, unlinking each entry submitted before
`earliest_submission_allowed` into the local expired list (clearing
`is_pending`); at the first entry not yet expired, re-arm the timer
for that entry (`start_expiration_timer` on a cleared `started_timer`)
and stop.  Returns the expired entries, the remaining pending list,
and the re-armed deadline when the walk stopped at a live entry. -/
def collectExpired (earliest timeout_jiffies min_timer_jiffies now : Nat) :
    List DedupeContext →
      List DedupeContext × List DedupeContext × Option Nat
  | [] => ([], [], none)
  | c :: rest =>
      if earliest ≤ c.submission_time then
        ([], c :: rest,
          some (get_albireo_timeout timeout_jiffies min_timer_jiffies now
            c.submission_time))
      else
        let r := collectExpired earliest timeout_jiffies min_timer_jiffies
          now rest
        ({ c with is_pending := false } :: r.1, r.2.1, r.2.2)

/-- The second loop of `timeout_index_operations`: run
`expire_index_operation` on each expired entry in order, threading
`active` and the timeout-reporter count and totalling the delivered
callbacks. -/
def expireContexts :
    List DedupeContext → Int → Nat →
      List DedupeContext × Int × Nat × Nat
  | [], active, count => ([], active, count, 0)
  | c :: rest, active, count =>
      let o := expire_index_operation c active count
      let r := expireContexts rest o.active o.timeout_count
      (o.ctx :: r.1, r.2.1, r.2.2.1,
        r.2.2.2 + (if o.callback_invoked then 1 else 0))

/-- The pending-plane state of the index touched by the timer. -/
structure PendingPlane where
  pending : List DedupeContext
  started_timer : Bool
  pending_timer : Nat
  active : Int
  timeout_count : Nat
deriving DecidableEq

structure TimeoutOutcome where
  st : PendingPlane
  expired : List DedupeContext
  callbacks : Nat
deriving DecidableEq

/-- `timeout_index_operations`: the timer body.  Under the pending
lock clear `started_timer` and split off the expired prefix of the
pending list (re-arming for the first live entry); then, outside the
lock, time out each expired entry that is still `BUSY`. -/
def timeout_index_operations
    (timeout_interval_msecs hz min_timer_jiffies now : Nat)
    (st : PendingPlane) : TimeoutOutcome :=
  let timeout_jiffies := msecs_to_jiffies hz timeout_interval_msecs
  let earliest_submission_allowed := jiffiesSub now timeout_jiffies
  let walk := collectExpired earliest_submission_allowed timeout_jiffies
    min_timer_jiffies now st.pending
  let phase2 := expireContexts walk.1 st.active st.timeout_count
  { st := { pending := walk.2.1,
            started_timer := walk.2.2.isSome,
            pending_timer := walk.2.2.getD st.pending_timer,
            active := phase2.2.1,
            timeout_count := phase2.2.2.1 },
    expired := phase2.1,
    callbacks := phase2.2.2.2 }

/-- The re-armed deadline as a function of the surviving list. -/
def rearmDeadline (timeout_jiffies min_timer_jiffies now : Nat) :
    List DedupeContext → Option Nat
  | [] => none
  | c :: _ =>
      some (get_albireo_timeout timeout_jiffies min_timer_jiffies now
        c.submission_time)

theorem collectExpired_spec (e tj mj now : Nat) :
    ∀ l : List DedupeContext,
    collectExpired e tj mj now l =
      ((l.takeWhile (fun c => decide (c.submission_time < e))).map
          (fun c => { c with is_pending := false }),
        l.dropWhile (fun c => decide (c.submission_time < e)),
        rearmDeadline tj mj now
          (l.dropWhile (fun c => decide (c.submission_time < e)))) := by
  intro l
  induction l with
  | nil => rfl
  | cons c rest ih =>
      by_cases h : e ≤ c.submission_time
      · simp [collectExpired, h, List.takeWhile_cons, List.dropWhile_cons,
          Nat.not_lt.mpr h, rearmDeadline]
      · push_neg at h
        simp [collectExpired, Nat.not_le.mpr h, h, List.takeWhile_cons,
          List.dropWhile_cons, ih]

theorem expireContexts_spec :
    ∀ (l : List DedupeContext) (active : Int) (count : Nat),
    expireContexts l active count =
      (l.map (fun c => (expire_index_operation c 0 0).ctx),
        active -
          l.countP
            (fun c => decide (c.request_state = RequestState.UR_BUSY)),
        count +
          l.countP
            (fun c => decide (c.request_state = RequestState.UR_BUSY)),
        l.countP
          (fun c => decide (c.request_state = RequestState.UR_BUSY))) := by
  intro l
  induction l with
  | nil => intro active count; simp [expireContexts]
  | cons c rest ih =>
      intro active count
      by_cases h : c.request_state = RequestState.UR_BUSY
      · simp only [expireContexts, expire_index_operation, h, if_pos,
          if_true, ih, List.countP_cons]
        simp [h]
        constructor
        · omega
        · omega
      · simp only [expireContexts, expire_index_operation, h, if_neg,
          if_false, ih, List.countP_cons]
        simp [h]

/-- C6: when the timer fires it clears `started_timer`, moves exactly
the leading pending entries submitted before `now` minus the timeout
to the expired list (clearing `is_pending`), stops at the first
non-expired entry and re-arms the timer for it if any remain; each
expired entry still `BUSY` gets `ETIMEDOUT`, one callback, an `active`
decrement and one reporter increment; an empty pending list changes
nothing and does not re-arm. -/
theorem c6_timer_expiry (msecs hz min_timer_jiffies now : Nat)
    (st : PendingPlane)
    (h1 : msecs_to_jiffies hz msecs ≤ now) (h2 : now < 2 ^ 64) :
    let timeout_jiffies := msecs_to_jiffies hz msecs
    let earliest := now - timeout_jiffies
    let result := timeout_index_operations msecs hz min_timer_jiffies now st
    let expiredSrc := st.pending.takeWhile
      (fun c => decide (c.submission_time < earliest))
    let live := st.pending.dropWhile
      (fun c => decide (c.submission_time < earliest))
    let busyCount := expiredSrc.countP
      (fun c => decide (c.request_state = RequestState.UR_BUSY))
    result.st.pending = live ∧
    result.expired = expiredSrc.map
      (fun c =>
        (expire_index_operation { c with is_pending := false } 0 0).ctx) ∧
    result.callbacks = busyCount ∧
    result.st.active = st.active - busyCount ∧
    result.st.timeout_count = st.timeout_count + busyCount ∧
    result.st.started_timer = !live.isEmpty ∧
    (∀ c rest, live = c :: rest →
      result.st.pending_timer =
        get_albireo_timeout timeout_jiffies min_timer_jiffies now
          c.submission_time) ∧
    (st.pending = [] →
      result.st.pending = [] ∧ result.st.started_timer = false ∧
      result.st.active = st.active ∧
      result.st.timeout_count = st.timeout_count ∧
      result.st.pending_timer = st.pending_timer ∧
      result.callbacks = 0) ∧
    (∀ (c : DedupeContext) (a : Int) (k : Nat),
      c.request_state = RequestState.UR_BUSY →
      (expire_index_operation c a k).ctx.status = ETIMEDOUT ∧
      (expire_index_operation c a k).ctx.request_state =
        RequestState.UR_TIMED_OUT ∧
      (expire_index_operation c a k).callback_invoked = true ∧
      (expire_index_operation c a k).active = a - 1 ∧
      (expire_index_operation c a k).timeout_count = k + 1) := by
  have hsub : jiffiesSub now (msecs_to_jiffies hz msecs) =
      now - msecs_to_jiffies hz msecs := jiffiesSub_eq now _ h1 h2
  simp only [timeout_index_operations, hsub, collectExpired_spec,
    expireContexts_spec, List.map_map, List.countP_map]
  refine ⟨trivial, rfl, rfl, rfl, rfl, ?_, ?_, ?_, ?_⟩
  · cases hl : st.pending.dropWhile
        (fun c =>
          decide (c.submission_time < now - msecs_to_jiffies hz msecs)) with
    | nil => simp [rearmDeadline, hl]
    | cons c rest => simp [rearmDeadline, hl]
  · intro c rest hl
    simp [rearmDeadline, hl]
  · intro hnil
    simp [hnil, rearmDeadline]
  · intro c a k h
    simp [expire_index_operation, h]

/-- C6 witness: one overdue busy entry and one fresh entry; the timer
expires exactly the first and re-arms for the second. -/
theorem c6_timer_expiry_witness :
    (timeout_index_operations 5000 1000 2 6000
        { pending :=
            [{ request_state := RequestState.UR_BUSY, is_pending := true,
               submission_time := 900, status := 0, dedupe_advice := none },
             { request_state := RequestState.UR_BUSY, is_pending := true,
               submission_time := 5000, status := 0, dedupe_advice := none }],
          started_timer := true, pending_timer := 0,
          active := 2, timeout_count := 0 }).callbacks =
      (([{ request_state := RequestState.UR_BUSY, is_pending := true,
           submission_time := 900, status := 0, dedupe_advice := none },
         { request_state := RequestState.UR_BUSY, is_pending := true,
           submission_time := 5000, status := 0,
           dedupe_advice := none }] : List DedupeContext).takeWhile
            (fun c => decide (c.submission_time <
              6000 - msecs_to_jiffies 1000 5000))).countP
        (fun c => decide (c.request_state = RequestState.UR_BUSY)) :=
  (c6_timer_expiry 5000 1000 2 6000
      { pending :=
          [{ request_state := RequestState.UR_BUSY, is_pending := true,
             submission_time := 900, status := 0, dedupe_advice := none },
           { request_state := RequestState.UR_BUSY, is_pending := true,
             submission_time := 5000, status := 0, dedupe_advice := none }],
        started_timer := true, pending_timer := 0,
        active := 2, timeout_count := 0 }
      (by decide) (by decide)).2.2.1

/-! ## Session state machine

The state-lock-protected fields of `struct dedupe_index`, with the
engine's answers supplied by response lists (the engine calls are made
with the state lock released; each loop iteration consumes one
response). -/

inductive IndexState where
  -- The UDS index is closed
  | IS_CLOSED
  -- The UdsIndexSession is opening or closing
  | IS_CHANGING
  -- The UDS index is open.
  | IS_OPENED
deriving DecidableEq

structure SessionState where
  index_state : IndexState
  index_target : IndexState
  changing : Bool
  create_flag : Bool
  dedupe_flag : Bool
  deduping : Bool
  error_flag : Bool
deriving DecidableEq

/-- The engine call an `open_session`/`close_session` iteration makes. -/
inductive EngineOp where
  | create
  | rebuild
  | close
deriving DecidableEq

/-- The engine's answers consumed by one `open_session` call. -/
structure OpenResponse where
  -- result of udsCreateLocalIndex or udsRebuildLocalIndex
  openResult : Int
  -- result of udsGetIndexConfiguration on the rebuild path
  configResult : Int
  -- whether the rebuilt index nonce equals the configured nonce
  nonceMatches : Bool
deriving DecidableEq

/-- `close_session`: mark `IS_CHANGING`, close the engine session with
the lock released, then mark `IS_CLOSED` and fold a close failure into
`error_flag`. -/
def close_session (closeResult : Int) (st : SessionState) : SessionState :=
  { st with index_state := IndexState.IS_CLOSED,
            error_flag :=
              st.error_flag || decide (closeResult ≠ UDS_SUCCESS) }

/-- `open_session`: capture and clear `create_flag`, mark
`IS_CHANGING` and clear `error_flag`; with the lock released, create or
rebuild the index (on a successful rebuild, read the configuration back
and compare nonces, arranging a create retry on mismatch); then settle
the state: a rebuild failing with `CORRUPT_COMPONENT`/`NO_INDEX` leaves
`IS_CLOSED` with `create_flag` set, success opens, any other failure
closes with `error_flag` and target forced to `IS_CLOSED`. -/
def open_session (resp : OpenResponse) (st : SessionState) :
    SessionState × EngineOp :=
  -- ASSERTION: We enter in IS_CLOSED state.
  let create_flag := st.create_flag
  let op := if create_flag then EngineOp.create else EngineOp.rebuild
  let st1 := { st with create_flag := false,
                       index_state := IndexState.IS_CHANGING,
                       error_flag := false }
  let result :=
    if create_flag then resp.openResult
    else if resp.openResult ≠ UDS_SUCCESS then resp.openResult
    else if resp.configResult ≠ UDS_SUCCESS then resp.configResult
    else UDS_SUCCESS
  -- We have an index, but it was made for some other VDO device.  We
  -- will close the index and then try to create a new index.
  let next_create_flag :=
    if create_flag = false ∧ resp.openResult = UDS_SUCCESS ∧
        resp.configResult = UDS_SUCCESS ∧ resp.nonceMatches = false
    then true else false
  let st2 :=
    if next_create_flag then { st1 with create_flag := true } else st1
  if create_flag = false ∧
      (result = UDS_CORRUPT_COMPONENT ∨ result = UDS_NO_INDEX) then
    -- Either there is no index, or there is no way we can recover the
    -- index.  We will be called again and try to create a new index.
    ({ st2 with index_state := IndexState.IS_CLOSED,
                create_flag := true }, op)
  else if result = UDS_SUCCESS then
    ({ st2 with index_state := IndexState.IS_OPENED }, op)
  else
    ({ st2 with index_state := IndexState.IS_CLOSED,
                index_target := IndexState.IS_CLOSED,
                error_flag := true }, op)

/-- `change_dedupe_state`: the driver work item.  Loop until the index
is in the target state and the create flag is clear, closing or
opening a session per iteration; then clear `changing` and recompute
`deduping`.  `fuel` bounds the iterations (`none` means the bound was
hit); the trace lists the state after each engine iteration and then
the final state, and the op list the engine calls made. -/
def change_dedupe_state (fuel : Nat) (opens : List OpenResponse)
    (closes : List Int) (st : SessionState) :
    Option SessionState × List SessionState × List EngineOp :=
  match fuel with
  | 0 => (none, [], [])
  | fuel + 1 =>
      if st.index_state ≠ st.index_target ∨ st.create_flag = true then
        if st.index_state = IndexState.IS_OPENED then
          let st1 := close_session (closes.headD UDS_SUCCESS) st
          let r := change_dedupe_state fuel opens closes.tail st1
          (r.1, st1 :: r.2.1, EngineOp.close :: r.2.2)
        else
          let o := open_session
            (opens.headD ⟨UDS_SUCCESS, UDS_SUCCESS, true⟩) st
          let r := change_dedupe_state fuel opens.tail closes o.1
          (r.1, o.1 :: r.2.1, o.2 :: r.2.2)
      else
        let final :=
          { st with
            changing := false,
            deduping := st.dedupe_flag &&
              decide (st.index_state = IndexState.IS_OPENED) }
        (some final, [final], [])

/-- `set_target_state`: under the state lock, optionally update
`dedupe_flag` and `create_flag`; if a change is already in progress
just retarget it; if the target differs or a create was forced, start
a change (setting `changing`, clearing `deduping`, enqueuing the
driver work item — the returned flag); otherwise recompute `deduping`
immediately.  -/
def set_target_state (st : SessionState) (target : IndexState)
    (change_dedupe dedupe set_create : Bool) : SessionState × Bool :=
  let st1 := if change_dedupe then { st with dedupe_flag := dedupe } else st
  let st2 := if set_create then { st1 with create_flag := true } else st1
  if st2.changing then
    -- A change is already in progress, just change the target state
    ({ st2 with index_target := target }, false)
  else if target ≠ st2.index_target ∨ set_create = true then
    -- Must start a state change by enqueuing a work item that calls
    -- change_dedupe_state.
    ({ st2 with index_target := target, changing := true,
                deduping := false }, true)
  else
    -- Online vs. offline changes happen immediately
    ({ st2 with
        deduping := st2.dedupe_flag &&
          decide (st2.index_state = IndexState.IS_OPENED) }, false)

/-- The invariant of claim C3: `deduping` implies the dedupe flag is
set and the index is open (and no state change is in progress). -/
def dedupingInv (st : SessionState) : Prop :=
  st.deduping = true →
    st.dedupe_flag = true ∧ st.index_state = IndexState.IS_OPENED ∧
      st.changing = false

theorem open_session_deduping (resp : OpenResponse) (st : SessionState) :
    (open_session resp st).1.deduping = st.deduping ∧
    (open_session resp st).1.changing = st.changing ∧
    (open_session resp st).1.dedupe_flag = st.dedupe_flag := by
  simp only [open_session]
  split_ifs <;> exact ⟨rfl, rfl, rfl⟩

theorem change_dedupe_state_preserves (fuel : Nat) :
    ∀ (opens : List OpenResponse) (closes : List Int) (st : SessionState),
    st.deduping = false →
    (∀ s ∈ (change_dedupe_state fuel opens closes st).2.1, dedupingInv s) ∧
    (∀ final, (change_dedupe_state fuel opens closes st).1 = some final →
      final.deduping = (final.dedupe_flag &&
        decide (final.index_state = IndexState.IS_OPENED)) ∧
      dedupingInv final) := by
  induction fuel with
  | zero =>
      intro opens closes st _
      exact ⟨(by intro s hs; cases hs), (by intro final h; cases h)⟩
  | succ fuel ih =>
      intro opens closes st hded
      by_cases hc : st.index_state ≠ st.index_target ∨ st.create_flag = true
      · by_cases hop : st.index_state = IndexState.IS_OPENED
        · have h1 : (close_session (closes.headD UDS_SUCCESS) st).deduping
              = false := hded
          obtain ⟨iht, ihf⟩ := ih opens closes.tail
            (close_session (closes.headD UDS_SUCCESS) st) h1
          simp only [change_dedupe_state, if_pos hc, if_pos hop]
          refine ⟨?_, ihf⟩
          intro s hs
          rcases List.mem_cons.mp hs with h | h
          · subst h; intro hd; rw [h1] at hd; cases hd
          · exact iht s h
        · have h1 : (open_session
              (opens.headD ⟨UDS_SUCCESS, UDS_SUCCESS, true⟩) st).1.deduping
              = false := by
            rw [(open_session_deduping _ st).1]; exact hded
          obtain ⟨iht, ihf⟩ := ih opens.tail closes
            (open_session (opens.headD ⟨UDS_SUCCESS, UDS_SUCCESS, true⟩)
              st).1 h1
          simp only [change_dedupe_state, if_pos hc, if_neg hop]
          refine ⟨?_, ihf⟩
          intro s hs
          rcases List.mem_cons.mp hs with h | h
          · subst h; intro hd; rw [h1] at hd; cases hd
          · exact iht s h
      · simp only [change_dedupe_state, if_neg hc]
        constructor
        · intro s hs
          rcases List.mem_cons.mp hs with h | h
          · subst h
            intro hd
            simp only [Bool.and_eq_true, decide_eq_true_eq] at hd
            exact ⟨hd.1, hd.2, rfl⟩
          · cases h
        · intro final hfinal
          simp only [Option.some.injEq] at hfinal
          subst hfinal
          refine ⟨rfl, ?_⟩
          intro hd
          simp only [Bool.and_eq_true, decide_eq_true_eq] at hd
          exact ⟨hd.1, hd.2, rfl⟩

/-- C3: the invariant `deduping → dedupe_flag ∧ index_state = OPENED`
is preserved by `set_target_state` (which sets `deduping := false` on
every path that starts a state change) and by the driver work item
`change_dedupe_state` at every intermediate state; whenever the driver
completes, `deduping` is recomputed exactly as
`dedupe_flag && (index_state = OPENED)`. -/
theorem c3_deduping_invariant :
    (∀ (st : SessionState) (target : IndexState)
        (change_dedupe dedupe set_create : Bool),
      dedupingInv st →
      dedupingInv (set_target_state st target change_dedupe dedupe
        set_create).1) ∧
    (∀ (st : SessionState) (target : IndexState)
        (change_dedupe dedupe set_create : Bool),
      (set_target_state st target change_dedupe dedupe set_create).2
          = true →
      (set_target_state st target change_dedupe dedupe
          set_create).1.deduping = false ∧
      (set_target_state st target change_dedupe dedupe
          set_create).1.changing = true) ∧
    (∀ (fuel : Nat) (opens : List OpenResponse) (closes : List Int)
        (st : SessionState),
      st.deduping = false →
      (∀ s ∈ (change_dedupe_state fuel opens closes st).2.1,
        dedupingInv s) ∧
      (∀ final,
        (change_dedupe_state fuel opens closes st).1 = some final →
        final.deduping = (final.dedupe_flag &&
          decide (final.index_state = IndexState.IS_OPENED)) ∧
        dedupingInv final)) := by
  refine ⟨?_, ?_, ?_⟩
  · intro st target change_dedupe dedupe set_create hinv
    obtain ⟨is, it, ch, cf, df, dd, ef⟩ := st
    simp only [dedupingInv] at hinv ⊢
    cases ch <;> cases dd <;> cases change_dedupe <;> cases set_create <;>
      simp_all [set_target_state] <;>
      (try (split_ifs <;> simp_all))
  · intro st target change_dedupe dedupe set_create h
    obtain ⟨is, it, ch, cf, df, dd, ef⟩ := st
    cases ch <;> cases change_dedupe <;> cases set_create <;>
      (simp_all [set_target_state];
        try (split_ifs at h ⊢ <;> simp_all))
  · exact fun fuel => change_dedupe_state_preserves fuel

/-- C3 witness: starting a close from an open, deduping state clears
`deduping`, and a driver run from a changing state lands in a state
satisfying the invariant. -/
theorem c3_deduping_invariant_witness :
    dedupingInv
      (set_target_state
        { index_state := IndexState.IS_OPENED,
          index_target := IndexState.IS_OPENED, changing := false,
          create_flag := false, dedupe_flag := true, deduping := true,
          error_flag := false }
        IndexState.IS_CLOSED false false false).1 :=
  c3_deduping_invariant.1
    { index_state := IndexState.IS_OPENED,
      index_target := IndexState.IS_OPENED, changing := false,
      create_flag := false, dedupe_flag := true, deduping := true,
      error_flag := false }
    IndexState.IS_CLOSED false false false
    (fun _ => ⟨rfl, rfl, rfl⟩)

/-- C7: when a rebuild succeeds but the engine's nonce differs from
the configured nonce, a create retry is arranged: the driver closes
the session and the next opening iteration creates a fresh index, the
engine call sequence being rebuild, close, create, and the run ends
with `index_state = OPENED` and no error. -/
theorem c7_nonce_mismatch_recovery (d e : Bool) :
    let st0 : SessionState :=
      { index_state := IndexState.IS_CLOSED,
        index_target := IndexState.IS_OPENED, changing := true,
        create_flag := false, dedupe_flag := d, deduping := false,
        error_flag := e }
    let rebuildMismatch : OpenResponse :=
      { openResult := UDS_SUCCESS, configResult := UDS_SUCCESS,
        nonceMatches := false }
    let createOk : OpenResponse :=
      { openResult := UDS_SUCCESS, configResult := UDS_SUCCESS,
        nonceMatches := true }
    let r := change_dedupe_state 4 [rebuildMismatch, createOk]
      [UDS_SUCCESS] st0
    r.2.2 = [EngineOp.rebuild, EngineOp.close, EngineOp.create] ∧
    r.2.1 =
      [{ index_state := IndexState.IS_OPENED,
         index_target := IndexState.IS_OPENED, changing := true,
         create_flag := true, dedupe_flag := d, deduping := false,
         error_flag := false },
       { index_state := IndexState.IS_CLOSED,
         index_target := IndexState.IS_OPENED, changing := true,
         create_flag := true, dedupe_flag := d, deduping := false,
         error_flag := false },
       { index_state := IndexState.IS_OPENED,
         index_target := IndexState.IS_OPENED, changing := true,
         create_flag := false, dedupe_flag := d, deduping := false,
         error_flag := false },
       { index_state := IndexState.IS_OPENED,
         index_target := IndexState.IS_OPENED, changing := false,
         create_flag := false, dedupe_flag := d, deduping := d,
         error_flag := false }] ∧
    r.1 = some
      { index_state := IndexState.IS_OPENED,
        index_target := IndexState.IS_OPENED, changing := false,
        create_flag := false, dedupe_flag := d, deduping := d,
        error_flag := false } := by
  cases d <;> cases e <;> decide

/-- C8: a rebuild failing with `CORRUPT_COMPONENT` or `NO_INDEX`
leaves the index closed with `create_flag` set, so the next driver
iteration creates a new index; the run ends with
`index_state = OPENED` and `error_flag = false`. -/
theorem c8_rebuild_corrupt_recovery (rc : Int) (d e : Bool)
    (hrc : rc = UDS_CORRUPT_COMPONENT ∨ rc = UDS_NO_INDEX) :
    let st0 : SessionState :=
      { index_state := IndexState.IS_CLOSED,
        index_target := IndexState.IS_OPENED, changing := true,
        create_flag := false, dedupe_flag := d, deduping := false,
        error_flag := e }
    let rebuildFails : OpenResponse :=
      { openResult := rc, configResult := UDS_SUCCESS,
        nonceMatches := true }
    let createOk : OpenResponse :=
      { openResult := UDS_SUCCESS, configResult := UDS_SUCCESS,
        nonceMatches := true }
    let r := change_dedupe_state 3 [rebuildFails, createOk] [] st0
    r.2.2 = [EngineOp.rebuild, EngineOp.create] ∧
    r.2.1 =
      [{ index_state := IndexState.IS_CLOSED,
         index_target := IndexState.IS_OPENED, changing := true,
         create_flag := true, dedupe_flag := d, deduping := false,
         error_flag := false },
       { index_state := IndexState.IS_OPENED,
         index_target := IndexState.IS_OPENED, changing := true,
         create_flag := false, dedupe_flag := d, deduping := false,
         error_flag := false },
       { index_state := IndexState.IS_OPENED,
         index_target := IndexState.IS_OPENED, changing := false,
         create_flag := false, dedupe_flag := d, deduping := d,
         error_flag := false }] ∧
    r.1 = some
      { index_state := IndexState.IS_OPENED,
        index_target := IndexState.IS_OPENED, changing := false,
        create_flag := false, dedupe_flag := d, deduping := d,
        error_flag := false } := by
  rcases hrc with h | h <;> subst h <;> cases d <;> cases e <;> decide

/-- C8 witness at `CORRUPT_COMPONENT` with dedupe enabled. -/
theorem c8_rebuild_corrupt_recovery_witness :
    (change_dedupe_state 3
        [{ openResult := UDS_CORRUPT_COMPONENT,
           configResult := UDS_SUCCESS, nonceMatches := true },
         { openResult := UDS_SUCCESS, configResult := UDS_SUCCESS,
           nonceMatches := true }] []
        { index_state := IndexState.IS_CLOSED,
          index_target := IndexState.IS_OPENED, changing := true,
          create_flag := false, dedupe_flag := true, deduping := false,
          error_flag := false }).2.2 =
      [EngineOp.rebuild, EngineOp.create] :=
  (c8_rebuild_corrupt_recovery UDS_CORRUPT_COMPONENT true false
    (Or.inl rfl)).1

end DedupeIndex
